import Mathlib

/-!
Verification of the cairotft transition engine and animated-widget logic.

The transition classes of `cairotft/transitions.py` are pure real-valued
functions, so they are embedded over `ℝ` (Python floats are modelled as exact
reals; the spec's tolerance talk is about rounding noise, which exact reals
eliminate).  The widget state machines (`widgets/marquee.py`,
`widgets/blink_icon.py`, `widgets/base.py`) and the SVG loader
(`svg_image.py`) only ever compare and combine numbers coming from the
external cairo collaborators, so they are embedded over `ℚ`, keeping every
widget definition computable.
-/

/-! ## Transition engine: `cairotft/transitions.py`

Each `pos` below is the body of the corresponding classmethod.  `math.pow`
with a literal integer exponent becomes `^ (n : ℕ)`; `math.pow(2, e)` with a
real exponent becomes real exponentiation (`Real.rpow`). -/

/-- `LinearTransition.pos`: `return progress`. -/
noncomputable def LinearTransition.pos (progress : ℝ) : ℝ := progress

/-- `QuadTransition.pos`: `return math.pow(progress, 2)`. -/
noncomputable def QuadTransition.pos (progress : ℝ) : ℝ := progress ^ 2

/-- `CubicTransition.pos`: `return math.pow(progress, 3)`. -/
noncomputable def CubicTransition.pos (progress : ℝ) : ℝ := progress ^ 3

/-- `QuartTransition.pos`: `return math.pow(progress, 4)`. -/
noncomputable def QuartTransition.pos (progress : ℝ) : ℝ := progress ^ 4

/-- `QuintTransition.pos`: `return math.pow(progress, 5)`. -/
noncomputable def QuintTransition.pos (progress : ℝ) : ℝ := progress ^ 5

/-- `PowTransition.pos`: `return math.pow(progress, 6)`. -/
noncomputable def PowTransition.pos (progress : ℝ) : ℝ := progress ^ 6

/-- `ExpoTransition.pos`: `return math.pow(2, 8 * (progress - 1))`. -/
noncomputable def ExpoTransition.pos (progress : ℝ) : ℝ :=
  (2 : ℝ) ^ (8 * (progress - 1))

/-- `CircTransition.pos`: `return 1 - math.sin(math.acos(progress - 1))`. -/
noncomputable def CircTransition.pos (progress : ℝ) : ℝ :=
  1 - Real.sin (Real.arccos (progress - 1))

/-- `SineTransition.pos`: `return 1 - math.cos(progress * math.pi / 2)`. -/
noncomputable def SineTransition.pos (progress : ℝ) : ℝ :=
  1 - Real.cos (progress * Real.pi / 2)

/-- `BackTransition.pos`:
`return math.pow(progress, 2) * (2.618 * progress - 1.618)`. -/
noncomputable def BackTransition.pos (progress : ℝ) : ℝ :=
  progress ^ 2 * (2.618 * progress - 1.618)

/-- The `while True` loop of `BounceTransition.pos`, with the loop state
`(p_a, p_b)` passed explicitly and an explicit iteration budget (`none`
models a loop that is still running when the budget is spent, i.e. Python
nontermination).  The loop body is, verbatim: if
`progress >= (7 - 4 * p_a) / 11` return
`p_b * p_b - math.pow((11 - 6 * p_a - 11 * progress) / 4, 2)`, else continue
with `p_a + p_b` and `p_b / 2`. -/
noncomputable def bounce_loop (progress : ℝ) (p_a p_b : ℝ) : ℕ → Option ℝ
  | 0 => none
  | fuel + 1 =>
    if (7 - 4 * p_a) / 11 ≤ progress then
      some (p_b * p_b - ((11 - 6 * p_a - 11 * progress) / 4) ^ 2)
    else bounce_loop progress (p_a + p_b) (p_b / 2) fuel

/-- `BounceTransition.pos`: the loop starts from `p_a = 0`, `p_b = 1`.  For
`progress ≥ 0` the threshold `(7 - 4 * p_a) / 11` reaches `0` at the fourth
test, so four iterations reproduce the source loop exactly on the documented
domain `[0, 1]` (for `progress < -1/11` the source loop never exits, which
the `Option` default only papers over outside that domain). -/
noncomputable def BounceTransition.pos (progress : ℝ) : ℝ :=
  (bounce_loop progress 0 1 4).getD 0

/-- `ElasticTransition.pos`:
`return math.pow(2, 10 * (progress - 1)) * math.cos(20 * progress * math.pi * 1 / 3)`. -/
noncomputable def ElasticTransition.pos (progress : ℝ) : ℝ :=
  (2 : ℝ) ^ (10 * (progress - 1)) * Real.cos (20 * progress * Real.pi * 1 / 3)

/-- The catalog of transition subclasses of `BaseTransition`. -/
inductive TransitionClass
  | linear | quad | cubic | quart | quint | pow
  | expo | circ | sine | back | bounce | elastic
  deriving DecidableEq, Repr

/-- Dispatch of `pos` over the subclass, as `cls.pos(...)` does. -/
noncomputable def TransitionClass.pos : TransitionClass → ℝ → ℝ
  | .linear => LinearTransition.pos
  | .quad => QuadTransition.pos
  | .cubic => CubicTransition.pos
  | .quart => QuartTransition.pos
  | .quint => QuintTransition.pos
  | .pow => PowTransition.pos
  | .expo => ExpoTransition.pos
  | .circ => CircTransition.pos
  | .sine => SineTransition.pos
  | .back => BackTransition.pos
  | .bounce => BounceTransition.pos
  | .elastic => ElasticTransition.pos

/-- `BaseTransition.ease_in`: `return cls.pos(progress)`; inherited by every
subclass `cls`. -/
noncomputable def BaseTransition.ease_in (cls : TransitionClass) (progress : ℝ) : ℝ :=
  cls.pos progress

/-- `BaseTransition.ease_out`: `return 1 - cls.pos(1 - progress)`; inherited
by every subclass `cls`. -/
noncomputable def BaseTransition.ease_out (cls : TransitionClass) (progress : ℝ) : ℝ :=
  1 - cls.pos (1 - progress)

/-- `BaseTransition.ease_in_out`: `cls.pos(2 * progress) / 2` when
`progress <= 0.5`, else `2 - cls.pos(2 * (1 - progress)) / 2`. -/
noncomputable def BaseTransition.ease_in_out (cls : TransitionClass) (progress : ℝ) : ℝ :=
  if progress ≤ 0.5 then cls.pos (2 * progress) / 2
  else 2 - cls.pos (2 * (1 - progress)) / 2

/-- The spec's sequence `b_k` for the bounce search: `b_0 = 1`,
`b_{k+1} = b_k / 2`.  It tracks the loop variable `p_b`. -/
noncomputable def bounce_b : ℕ → ℝ
  | 0 => 1
  | k + 1 => bounce_b k / 2

/-- The spec's sequence `a_k` for the bounce search: `a_0 = 0`,
`a_{k+1} = a_k + b_k`.  It tracks the loop variable `p_a`. -/
noncomputable def bounce_a : ℕ → ℝ
  | 0 => 0
  | k + 1 => bounce_a k + bounce_b k

/-! ## Widget layer: common helpers

The drawing context, fonts and surfaces are external cairo collaborators;
only their numeric answers (text extents) and the drawing requests they
receive are modelled.  Python floats on this layer are embedded as `ℚ` so
that every widget definition stays computable. -/

/-- An rgba color tuple, as the 4-tuples of floats used by the widgets. -/
abbrev Color := ℚ × ℚ × ℚ × ℚ

/-- The 6-tuple returned by cairo's `ctx.text_extents(text)`:
`(x_bearing, y_bearing, width, height, x_advance, y_advance)`. -/
structure TextExtents where
  x_bearing : ℚ
  y_bearing : ℚ
  width : ℚ
  height : ℚ
  x_advance : ℚ
  y_advance : ℚ
  deriving DecidableEq, Repr

/-- Python's `int()` on a float: truncation toward zero. -/
def py_int (q : ℚ) : ℤ := if 0 ≤ q then ⌊q⌋ else ⌈q⌉

/-- Python's slice `s[k:]`, including the negative-index convention
(`s[-n:]` is the suffix of length `min n (len s)`). -/
def py_slice_from (s : List Char) (k : ℤ) : List Char :=
  if 0 ≤ k then s.drop k.toNat
  else s.drop (s.length - min (-k).toNat s.length)

/-- The three-space gap `"   "` inserted between the two text copies. -/
def three_spaces : List Char := [' ', ' ', ' ']

/-! ## Marquee widget: `cairotft/widgets/marquee.py` -/

/-- The mutable state of a `Marquee` instance.  Purely graphical fields of
the source (`font_face`, `font_size`, the off-screen surface, stride and the
`smooth_full_*` geometry of the pre-rendered strip) take part in no claim
and no control flow, so they are not carried; `smooth_text_width` is `none`
until `_smooth_init_buffer` assigns it, and `transition` is the easing
callable passed to the constructor. -/
structure MarqueeState where
  stop : Bool
  showing : Bool
  pos : ℤ
  text : List Char
  full_text : List Char
  shrinked_text : List Char
  text_color : Color
  background_color : Color
  old_text_color : Color
  old_background_color : Color
  pos_x : ℚ
  pos_y : ℚ
  width : ℚ
  height : ℚ
  step : ℚ
  smooth : Bool
  max_offset : ℤ
  interval_time : ℚ
  transition : ℚ → ℚ
  transition_time : Option ℚ
  first_time : Option ℚ
  should_scroll : Bool
  smooth_text_width : Option ℤ

/-- `Marquee.__init__`: the state a freshly constructed marquee holds. -/
def Marquee.init (text : List Char) (text_color : Color)
    (pos_x pos_y width height : ℚ) (background_color : Color)
    (step : ℚ) (interval_time : ℚ) (transition : ℚ → ℚ) (smooth : Bool) :
    MarqueeState where
  stop := false
  showing := false
  pos := 0
  text := text
  full_text := text ++ three_spaces ++ text
  shrinked_text := text
  text_color := text_color
  background_color := background_color
  old_text_color := text_color
  old_background_color := background_color
  pos_x := pos_x
  pos_y := pos_y
  width := width
  height := height
  step := step
  smooth := smooth
  max_offset := (text.length : ℤ) + 3
  interval_time := interval_time
  transition := transition
  transition_time := none
  first_time := none
  should_scroll := false
  smooth_text_width := none

/-- The measurement loop of `Marquee._shrink_text`: strip the last character
while `x_advance > self.width`.  In Python `""[:-1] == ""`, so when even the
empty string is measured wider than the box the loop never exits; that case
is modelled as `none`. -/
def shrink_loop (ext : List Char → TextExtents) (w : ℚ) (t : List Char) :
    Option (List Char) :=
  if w < (ext t).x_advance then
    if h : t = [] then none
    else shrink_loop ext w t.dropLast
  else some t
  termination_by t.length
  decreasing_by
    rw [List.length_dropLast]
    exact Nat.sub_lt (List.length_pos.mpr h) one_pos

/-- The `new_text` selection at the top of `Marquee._shrink_text`: the
visible substring comes from `full_text` when `self._pos > 0`, else from
`text`. -/
def Marquee.new_text (m : MarqueeState) : List Char :=
  if 0 < m.pos then py_slice_from m.full_text m.pos
  else py_slice_from m.text m.pos

/-- `Marquee._shrink_text(ctx)`: shrink the visible substring to fit, store
it in `_shrinked_text`, and when the result differs from `text` set
`_should_scroll` and `_transition_time`.  `none` models the measurement loop
never exiting. -/
def Marquee.shrink_text (ext : List Char → TextExtents) (m : MarqueeState) :
    Option MarqueeState :=
  match shrink_loop ext m.width (Marquee.new_text m) with
  | none => none
  | some nt =>
    if nt ≠ m.text then
      some { m with
        shrinked_text := nt
        should_scroll := true
        transition_time :=
          some (m.interval_time * ((m.text.length : ℚ) + 3) / m.step) }
    else some { m with shrinked_text := nt }

/-- `Marquee._smooth_init_buffer(ctx)`: measure `self.text + "   "`, record
`smooth_text_width = int(x_advance)` and make it the new `max_offset`; when
the measured extents width exceeds the box width, arm scrolling and set
`_transition_time = interval_time * smooth_text_width / step`.  The
allocation of the off-screen strip and the initial `_smooth_draw_text` call
are pure graphics and are not modelled. -/
def Marquee.smooth_init_buffer (ext : List Char → TextExtents)
    (m : MarqueeState) : MarqueeState :=
  let e_small := ext (m.text ++ three_spaces)
  let small_text_width := e_small.width
  let stw := py_int e_small.x_advance
  let m1 := { m with smooth_text_width := some stw, max_offset := stw }
  if m1.width < small_text_width then
    { m1 with
      should_scroll := true
      transition_time := some (m1.interval_time * (stw : ℚ) / m1.step) }
  else m1

/-- `Marquee.color_changed(self)`: the truthiness of the method's return
value (`True`, or `None` when nothing changed). -/
def Marquee.color_changed (m : MarqueeState) : Bool :=
  decide (m.old_text_color ≠ m.text_color) ||
    decide (m.old_background_color ≠ m.background_color)

/-- The expression actually tested by `Marquee.show`: the attribute
`self.color_changed` without parentheses, i.e. the bound-method object
itself, which is always truthy in Python. -/
def color_changed_attr_truthy (_m : MarqueeState) : Bool := true

/-- The drawing requests a `Marquee.show` call issues against the context
and the display. -/
inductive DrawEvent
  | erase_box
  | draw_text (s : List Char)
  | paint_slice (offset : ℤ)
  | blit
  deriving DecidableEq, Repr

/-- The `if self._should_scroll:` block of `Marquee.show`: recompute `_pos`
from wall-clock time through the transition, then recycle (reset
`_first_time` and recompute `_pos` at progress 0) once the elapsed time
exceeds `_transition_time`.  The source reads `self._transition_time`
unconditionally here; it is `None` only when `_should_scroll` is false, in
which case the block is skipped, so the `getD 0` default is never the value
actually used. -/
def Marquee.scroll_block (now : ℚ) (m1 : MarqueeState) : MarqueeState :=
  if m1.should_scroll then
    let t := m1.transition_time.getD 0
    let m2 :=
      match m1.first_time with
      | some ft =>
        { m1 with
          pos := py_int ((m1.max_offset : ℚ) *
            m1.transition ((now - ft) / t)) }
      | none =>
        { m1 with
          first_time := some now
          pos := py_int ((m1.max_offset : ℚ) * m1.transition 0) }
    if t < now - (m2.first_time.getD now) then
      { m2 with
        first_time := some now
        pos := py_int ((m2.max_offset : ℚ) * m2.transition 0) }
    else m2
  else m1

/-- The tail of a live `Marquee.show` frame: the scroll block followed by
the `_old_text_color` / `_old_background_color` updates. -/
def Marquee.finish_frame (now : ℚ) (m1 : MarqueeState) : MarqueeState :=
  let m3 := Marquee.scroll_block now m1
  { m3 with
    old_text_color := m3.text_color
    old_background_color := m3.background_color }

/-- `Marquee.show(ctx, no_loop)`: one frame.  Returns the updated state, the
drawing requests issued, and whether `call_later(interval_time, show)` was
re-armed; `none` models the `_shrink_text` measurement loop never exiting.
The first two branches test `(self.color_changed or self._should_scroll)`
where `self.color_changed` is the bound-method object (see
`color_changed_attr_truthy`). -/
def Marquee.show (ext : List Char → TextExtents) (now : ℚ) (no_loop : Bool)
    (m : MarqueeState) : Option (MarqueeState × List DrawEvent × Bool) :=
  if !m.stop && m.showing then
    let branch : Option (MarqueeState × List DrawEvent) :=
      if (color_changed_attr_truthy m || m.should_scroll) && !m.smooth then
        (Marquee.shrink_text ext m).map fun m1 =>
          (m1, [DrawEvent.erase_box, DrawEvent.draw_text m1.shrinked_text,
                DrawEvent.blit])
      else if (color_changed_attr_truthy m || m.should_scroll) && m.smooth then
        some (m, [DrawEvent.erase_box, DrawEvent.paint_slice m.pos,
                  DrawEvent.blit])
      else some (m, [])
    match branch with
    | none => none
    | some (m1, events) =>
      some (Marquee.finish_frame now m1, events, !no_loop)
  else some (m, [], false)

/-- `Marquee.start(ctx)`: arm the widget and schedule the first `show` via
`call_soon` (the returned `Bool`); a no-op when already showing.  `none`
models `_shrink_text` never exiting. -/
def Marquee.start (ext : List Char → TextExtents) (m : MarqueeState) :
    Option (MarqueeState × Bool) :=
  if !m.showing then
    let m1 := { m with showing := true, stop := false, first_time := none }
    if m1.smooth then some (Marquee.smooth_init_buffer ext m1, true)
    else (Marquee.shrink_text ext m1).map fun m2 => (m2, true)
  else some (m, false)

/-- `Marquee.stop()`. -/
def Marquee.stop (m : MarqueeState) : MarqueeState :=
  { m with stop := true, showing := false, first_time := none }

/-- A run of successive `show(ctx)` invocations, one per wall-clock
timestamp in the list (each invocation is the one the previous frame
re-armed, so `no_loop` is `false`). -/
def Marquee.show_trace (ext : List Char → TextExtents) (m : MarqueeState) :
    List ℚ → Option MarqueeState
  | [] => some m
  | now :: rest =>
    match Marquee.show ext now false m with
    | none => none
    | some (m1, _, _) => Marquee.show_trace ext m1 rest

/-! ## BlinkIcon widget: `cairotft/widgets/blink_icon.py` -/

/-- The state of a `BlinkIcon`; the icon asset, geometry and background
color only parameterize drawing calls and carry no control flow. -/
structure BlinkIconState where
  stop : Bool
  showing : Bool
  on_time : ℚ
  off_time : ℚ
  deriving DecidableEq, Repr

/-- Drawing requests of the blink cycle. -/
inductive IconEvent
  | draw_icon
  | fill_rect
  | blit
  deriving DecidableEq, Repr

/-- A callback armed with `call_later(delay, ...)`. -/
inductive IconSched
  | sched_show (delay : ℚ)
  | sched_hide (delay : ℚ)
  deriving DecidableEq, Repr

/-- `BlinkIcon.show(ctx)`: draw the icon, blit, and arm `hide` after
`on_time` — unless `_stop` is set, in which case nothing at all happens. -/
def BlinkIcon.show (b : BlinkIconState) :
    BlinkIconState × List IconEvent × Option IconSched :=
  if !b.stop then
    (b, [IconEvent.draw_icon, IconEvent.blit],
     some (IconSched.sched_hide b.on_time))
  else (b, [], none)

/-- `BlinkIcon.hide(ctx)`: repaint the background, blit, and arm `show`
after `off_time`; when `_stop` is set it only clears `_showing`. -/
def BlinkIcon.hide (b : BlinkIconState) :
    BlinkIconState × List IconEvent × Option IconSched :=
  if !b.stop then
    (b, [IconEvent.fill_rect, IconEvent.blit],
     some (IconSched.sched_show b.off_time))
  else ({ b with showing := false }, [], none)

/-- `BlinkIcon.start(ctx)`: arm the widget and schedule `show` via
`call_soon` (the returned `Bool`); a no-op when already showing. -/
def BlinkIcon.start (b : BlinkIconState) : BlinkIconState × Bool :=
  if !b.showing then ({ b with showing := true, stop := false }, true)
  else (b, false)

/-- `BlinkIcon.stop()`. -/
def BlinkIcon.stop (b : BlinkIconState) : BlinkIconState :=
  { b with stop := true, showing := false }

/-! ## Animated widget base: `cairotft/widgets/base.py` -/

/-- The `interval_time` chosen by `BaseAnimatedWidget.__init__` from the
display's optional `fps` and the optional requested `interval_time`,
following its `if`/`elif` chain verbatim. -/
def BaseAnimatedWidget.interval_time (fps : Option ℚ)
    (requested : Option ℚ) : ℚ :=
  match fps, requested with
  | some f, some i => max i (1 / f)
  | some f, none => 1 / f
  | none, some i => i
  | none, none => 1

/-! ## SVG loading: `cairotft/svg_image.py` -/

/-- What the external CairoSVG renderer hands back on success: the parsed
image with its intrinsic size. -/
structure ParsedSVG where
  width : ℚ
  height : ℚ
  deriving DecidableEq, Repr

/-- The `ImageLoadingError` raised by `SVGImage.__init__`: either wrapping
the exception text of a failed render/parse (`from_exception`) or the
dedicated no-intrinsic-size message. -/
inductive ImageLoadingError
  | from_exception (exc : String)
  | no_intrinsic_size
  deriving DecidableEq, Repr

/-- The attributes a successfully constructed `SVGImage` ends up with
(`intrinsic_ratio` in the source). -/
structure SVGImageState where
  intrinsic_width : ℚ
  intrinsic_height : ℚ
  ratio_wh : ℚ
  deriving DecidableEq, Repr

/-- `SVGImage.__init__`, abstracted over the outcome of `self._render()`
(the external parse/render step): a raised exception is re-raised as
`ImageLoadingError.from_exception`; a parsed image whose width and height
are not both positive raises the no-intrinsic-size error; otherwise the
intrinsic attributes are set from the parse. -/
def SVGImage.init (render_result : Except String ParsedSVG) :
    Except ImageLoadingError SVGImageState :=
  match render_result with
  | .error exc => .error (ImageLoadingError.from_exception exc)
  | .ok svg =>
    if ¬(0 < svg.width ∧ 0 < svg.height) then
      .error ImageLoadingError.no_intrinsic_size
    else
      .ok { intrinsic_width := svg.width
            intrinsic_height := svg.height
            ratio_wh := svg.width / svg.height }

/-! ## Theorems: transition engine -/

/-- Unfolding lemma for one iteration of the bounce loop. -/
theorem bounce_loop_succ (p p_a p_b : ℝ) (fuel : ℕ) :
    bounce_loop p p_a p_b (fuel + 1) =
      if (7 - 4 * p_a) / 11 ≤ p then
        some (p_b * p_b - ((11 - 6 * p_a - 11 * p) / 4) ^ 2)
      else bounce_loop p (p_a + p_b) (p_b / 2) fuel := rfl

/-- C1 (corrected): endpoint values of `pos` for every variant other than
Back and Elastic.  Linear, Quad, Cubic, Quart, Quint, Pow, Sine and Bounce
do satisfy `pos 0 = 0` and `pos 1 = 1` exactly; Expo satisfies `pos 1 = 1`
but `pos 0 = 1/256` (the mootools formula `2^(8(p-1))`, off from `0` by far
more than floating-point tolerance); Circ has its endpoints reversed,
`pos 0 = 1` and `pos 1 = 0`, because the source feeds `progress - 1` to
`acos`. -/
theorem transition_endpoint_values :
    (LinearTransition.pos 0 = 0 ∧ LinearTransition.pos 1 = 1) ∧
    (QuadTransition.pos 0 = 0 ∧ QuadTransition.pos 1 = 1) ∧
    (CubicTransition.pos 0 = 0 ∧ CubicTransition.pos 1 = 1) ∧
    (QuartTransition.pos 0 = 0 ∧ QuartTransition.pos 1 = 1) ∧
    (QuintTransition.pos 0 = 0 ∧ QuintTransition.pos 1 = 1) ∧
    (PowTransition.pos 0 = 0 ∧ PowTransition.pos 1 = 1) ∧
    (SineTransition.pos 0 = 0 ∧ SineTransition.pos 1 = 1) ∧
    (BounceTransition.pos 0 = 0 ∧ BounceTransition.pos 1 = 1) ∧
    (ExpoTransition.pos 1 = 1 ∧ ExpoTransition.pos 0 = 1 / 256) ∧
    (CircTransition.pos 0 = 1 ∧ CircTransition.pos 1 = 0) := by
  refine ⟨⟨rfl, rfl⟩, ?_, ?_, ?_, ?_, ?_, ?_, ?_, ?_, ?_⟩
  · constructor <;> norm_num [QuadTransition.pos]
  · constructor <;> norm_num [CubicTransition.pos]
  · constructor <;> norm_num [QuartTransition.pos]
  · constructor <;> norm_num [QuintTransition.pos]
  · constructor <;> norm_num [PowTransition.pos]
  · constructor
    · unfold SineTransition.pos
      rw [show ((0 : ℝ) * Real.pi / 2) = 0 by ring, Real.cos_zero]
      norm_num
    · unfold SineTransition.pos
      rw [show ((1 : ℝ) * Real.pi / 2) = Real.pi / 2 by ring,
        Real.cos_pi_div_two]
      norm_num
  · constructor
    · unfold BounceTransition.pos
      rw [show (4 : ℕ) = 3 + 1 from rfl, bounce_loop_succ,
        if_neg (by norm_num),
        show (3 : ℕ) = 2 + 1 from rfl, bounce_loop_succ,
        if_neg (by norm_num),
        show (2 : ℕ) = 1 + 1 from rfl, bounce_loop_succ,
        if_neg (by norm_num),
        show (1 : ℕ) = 0 + 1 from rfl, bounce_loop_succ,
        if_pos (by norm_num)]
      norm_num
    · unfold BounceTransition.pos
      rw [show (4 : ℕ) = 3 + 1 from rfl, bounce_loop_succ,
        if_pos (by norm_num)]
      norm_num
  · constructor
    · unfold ExpoTransition.pos
      rw [show (8 * ((1 : ℝ) - 1)) = 0 by ring, Real.rpow_zero]
    · unfold ExpoTransition.pos
      rw [show (8 * ((0 : ℝ) - 1)) = ((-8 : ℤ) : ℝ) by norm_num,
        Real.rpow_intCast]
      norm_num
  · constructor
    · unfold CircTransition.pos
      rw [show ((0 : ℝ) - 1) = -1 by norm_num, Real.arccos_neg_one,
        Real.sin_pi]
      norm_num
    · unfold CircTransition.pos
      rw [show ((1 : ℝ) - 1) = 0 by norm_num, Real.arccos_zero,
        Real.sin_pi_div_two]
      norm_num

/-- C1 (counterexample): the claim as stated is false at the concrete
inputs `ExpoTransition.pos 0` (which is `1/256`, not `0`) and
`CircTransition.pos 1` (which is `0`, not `1`). -/
theorem transition_endpoints_claim_false :
    ExpoTransition.pos 0 ≠ 0 ∧ CircTransition.pos 1 ≠ 1 := by
  constructor
  · unfold ExpoTransition.pos
    rw [show (8 * ((0 : ℝ) - 1)) = ((-8 : ℤ) : ℝ) by norm_num,
      Real.rpow_intCast]
    norm_num
  · unfold CircTransition.pos
    rw [show ((1 : ℝ) - 1) = 0 by norm_num, Real.arccos_zero,
      Real.sin_pi_div_two]
    norm_num

/-- C2: for every transition variant `cls` and every progress in `[0, 1]`,
the inherited `ease_out` wrapper equals `1 - pos(1 - progress)` — it is the
single `BaseTransition.ease_out` body dispatching to the subclass `pos`. -/
theorem ease_out_is_one_minus_flipped_pos (cls : TransitionClass) (p : ℝ)
    (h0 : 0 ≤ p) (h1 : p ≤ 1) :
    BaseTransition.ease_out cls p = 1 - cls.pos (1 - p) := rfl

/-- C2 witness: the identity instantiated for the Linear variant at
progress `1/2`. -/
theorem ease_out_is_one_minus_flipped_pos_witness :
    0 ≤ (1 / 2 : ℝ) ∧ (1 / 2 : ℝ) ≤ 1 ∧
      BaseTransition.ease_out TransitionClass.linear (1 / 2) =
        1 - TransitionClass.pos TransitionClass.linear (1 - 1 / 2) :=
  ⟨by norm_num, by norm_num,
    ease_out_is_one_minus_flipped_pos TransitionClass.linear (1 / 2)
      (by norm_num) (by norm_num)⟩

/-- C3: for every progress in `[0, 1]` the bounce search terminates — there
is a smallest `k` with `progress ≥ (7 - 4 a_k) / 11` for the spec sequences
`a`, `b` — and `BounceTransition.pos` returns
`b_k² - ((11 - 6 a_k - 11 progress) / 4)²` for that smallest `k`. -/
theorem bounce_pos_search (p : ℝ) (h0 : 0 ≤ p) (h1 : p ≤ 1) :
    ∃ k : ℕ, (7 - 4 * bounce_a k) / 11 ≤ p ∧
      (∀ j, j < k → ¬((7 - 4 * bounce_a j) / 11 ≤ p)) ∧
      BounceTransition.pos p =
        bounce_b k * bounce_b k -
          ((11 - 6 * bounce_a k - 11 * p) / 4) ^ 2 := by
  have ha0 : bounce_a 0 = 0 := rfl
  have hb0 : bounce_b 0 = 1 := rfl
  have hb1 : bounce_b 1 = 1 / 2 := by
    rw [show bounce_b 1 = bounce_b 0 / 2 from rfl, hb0]
  have hb2 : bounce_b 2 = 1 / 4 := by
    rw [show bounce_b 2 = bounce_b 1 / 2 from rfl, hb1]
    norm_num
  have hb3 : bounce_b 3 = 1 / 8 := by
    rw [show bounce_b 3 = bounce_b 2 / 2 from rfl, hb2]
    norm_num
  have ha1 : bounce_a 1 = 1 := by
    rw [show bounce_a 1 = bounce_a 0 + bounce_b 0 from rfl, ha0, hb0]
    norm_num
  have ha2 : bounce_a 2 = 3 / 2 := by
    rw [show bounce_a 2 = bounce_a 1 + bounce_b 1 from rfl, ha1, hb1]
    norm_num
  have ha3 : bounce_a 3 = 7 / 4 := by
    rw [show bounce_a 3 = bounce_a 2 + bounce_b 2 from rfl, ha2, hb2]
    norm_num
  unfold BounceTransition.pos
  by_cases hc0 : 7 / 11 ≤ p
  · have e1 : bounce_loop p 0 1 4 =
        some (1 * 1 - ((11 - 6 * 0 - 11 * p) / 4) ^ 2) := by
      show bounce_loop p 0 1 (3 + 1) = _
      rw [bounce_loop_succ, if_pos (by linarith)]
    refine ⟨0, by rw [ha0]; linarith,
      fun j hj => absurd hj (Nat.not_lt_zero j), ?_⟩
    rw [e1, Option.getD_some, ha0, hb0]
  · have e1 : bounce_loop p 0 1 4 = bounce_loop p (0 + 1) (1 / 2) 3 := by
      show bounce_loop p 0 1 (3 + 1) = _
      rw [bounce_loop_succ, if_neg (by intro hle; exact hc0 (by linarith))]
    by_cases hc1 : 3 / 11 ≤ p
    · have e2 : bounce_loop p (0 + 1) (1 / 2) 3 =
          some (1 / 2 * (1 / 2) - ((11 - 6 * (0 + 1) - 11 * p) / 4) ^ 2) := by
        show bounce_loop p (0 + 1) (1 / 2) (2 + 1) = _
        rw [bounce_loop_succ, if_pos (by norm_num; linarith)]
      refine ⟨1, by rw [ha1]; linarith, ?_, ?_⟩
      · intro j hj
        obtain rfl : j = 0 := by omega
        rw [ha0]; intro hle; exact hc0 (by linarith)
      · rw [e1, e2, Option.getD_some, ha1, hb1]
        norm_num
    · have e2 : bounce_loop p (0 + 1) (1 / 2) 3 =
          bounce_loop p (0 + 1 + 1 / 2) (1 / 2 / 2) 2 := by
        show bounce_loop p (0 + 1) (1 / 2) (2 + 1) = _
        rw [bounce_loop_succ, if_neg (by norm_num; linarith)]
      by_cases hc2 : 1 / 11 ≤ p
      · have e3 : bounce_loop p (0 + 1 + 1 / 2) (1 / 2 / 2) 2 =
            some (1 / 2 / 2 * (1 / 2 / 2) -
              ((11 - 6 * (0 + 1 + 1 / 2) - 11 * p) / 4) ^ 2) := by
          show bounce_loop p (0 + 1 + 1 / 2) (1 / 2 / 2) (1 + 1) = _
          rw [bounce_loop_succ, if_pos (by norm_num; linarith)]
        refine ⟨2, by rw [ha2]; linarith, ?_, ?_⟩
        · intro j hj
          interval_cases j
          · rw [ha0]; intro hle; exact hc0 (by linarith)
          · rw [ha1]; intro hle; exact hc1 (by linarith)
        · rw [e1, e2, e3, Option.getD_some, ha2, hb2]
          norm_num
      · have e3 : bounce_loop p (0 + 1 + 1 / 2) (1 / 2 / 2) 2 =
            bounce_loop p (0 + 1 + 1 / 2 + 1 / 2 / 2) (1 / 2 / 2 / 2) 1 := by
          show bounce_loop p (0 + 1 + 1 / 2) (1 / 2 / 2) (1 + 1) = _
          rw [bounce_loop_succ, if_neg (by norm_num; linarith)]
        have e4 : bounce_loop p (0 + 1 + 1 / 2 + 1 / 2 / 2) (1 / 2 / 2 / 2) 1 =
            some (1 / 2 / 2 / 2 * (1 / 2 / 2 / 2) -
              ((11 - 6 * (0 + 1 + 1 / 2 + 1 / 2 / 2) - 11 * p) / 4) ^ 2) := by
          show bounce_loop p (0 + 1 + 1 / 2 + 1 / 2 / 2) (1 / 2 / 2 / 2)
            (0 + 1) = _
          rw [bounce_loop_succ, if_pos (by norm_num; linarith)]
        refine ⟨3, by rw [ha3]; linarith, ?_, ?_⟩
        · intro j hj
          interval_cases j
          · rw [ha0]; intro hle; exact hc0 (by linarith)
          · rw [ha1]; intro hle; exact hc1 (by linarith)
          · rw [ha2]; intro hle; exact hc2 (by linarith)
        · rw [e1, e2, e3, e4, Option.getD_some, ha3, hb3]
          norm_num

/-- C3 witness: the terminating search instantiated at progress `1/2`. -/
theorem bounce_pos_search_witness :
    0 ≤ (1 / 2 : ℝ) ∧ (1 / 2 : ℝ) ≤ 1 ∧
      ∃ k : ℕ, (7 - 4 * bounce_a k) / 11 ≤ (1 / 2 : ℝ) ∧
        (∀ j, j < k → ¬((7 - 4 * bounce_a j) / 11 ≤ (1 / 2 : ℝ))) ∧
        BounceTransition.pos (1 / 2) =
          bounce_b k * bounce_b k -
            ((11 - 6 * bounce_a k - 11 * (1 / 2 : ℝ)) / 4) ^ 2 :=
  ⟨by norm_num, by norm_num,
    bounce_pos_search (1 / 2) (by norm_num) (by norm_num)⟩

/-! ## Theorems: widgets -/

/-- C7: for every `BlinkIcon`, running `start` and then `stop` before the
scheduled first `show` callback fires leaves `showing = false`, and when
that pending `show` callback then runs it draws nothing, blits nothing and
schedules nothing (and leaves the state untouched). -/
theorem blink_start_stop_before_first_show (b : BlinkIconState) :
    (BlinkIcon.stop (BlinkIcon.start b).1).showing = false ∧
      BlinkIcon.show (BlinkIcon.stop (BlinkIcon.start b).1) =
        (BlinkIcon.stop (BlinkIcon.start b).1, [], none) := by
  constructor
  · rfl
  · rfl

/-- C10: the effective frame interval of `BaseAnimatedWidget` is
`max requested (1 / fps)` when both are given, `1 / fps` when only the fps
is given, the requested interval when only it is given, `1` second when
neither is given; in particular with an fps set it is never below
`1 / fps`. -/
theorem animated_widget_interval_choice (f i : ℚ) :
    BaseAnimatedWidget.interval_time (some f) (some i) = max i (1 / f) ∧
    BaseAnimatedWidget.interval_time (some f) none = 1 / f ∧
    BaseAnimatedWidget.interval_time none (some i) = i ∧
    BaseAnimatedWidget.interval_time none none = 1 ∧
    ∀ requested : Option ℚ,
      1 / f ≤ BaseAnimatedWidget.interval_time (some f) requested := by
  refine ⟨rfl, rfl, rfl, rfl, ?_⟩
  intro requested
  cases requested with
  | none => exact le_refl _
  | some i2 => exact le_max_right _ _

/-- Unfolding lemma: `SVGImage.__init__` on a successful render. -/
theorem SVGImage.init_ok (svg : ParsedSVG) :
    SVGImage.init (Except.ok svg) =
      if ¬(0 < svg.width ∧ 0 < svg.height) then
        .error ImageLoadingError.no_intrinsic_size
      else
        .ok { intrinsic_width := svg.width
              intrinsic_height := svg.height
              ratio_wh := svg.width / svg.height } := rfl

/-- Unfolding lemma: `SVGImage.__init__` on a failed render. -/
theorem SVGImage.init_err (exc : String) :
    SVGImage.init (Except.error exc) =
      .error (ImageLoadingError.from_exception exc) := rfl

/-- C9: constructing an `SVGImage` raises `ImageLoadingError` exactly when
the render/parse step raised, or when the parsed intrinsic width and height
are not both positive; on success the intrinsic attributes are set from the
parsed image. -/
theorem svg_init_load_error_iff (r : Except String ParsedSVG) :
    ((∃ e, SVGImage.init r = .error e) ↔
        (∃ exc, r = .error exc) ∨
          ∃ svg, r = .ok svg ∧ ¬(0 < svg.width ∧ 0 < svg.height)) ∧
      ∀ svg, r = .ok svg → 0 < svg.width → 0 < svg.height →
        SVGImage.init r = .ok
          { intrinsic_width := svg.width
            intrinsic_height := svg.height
            ratio_wh := svg.width / svg.height } := by
  constructor
  · constructor
    · intro he
      cases r with
      | error exc => exact Or.inl ⟨exc, rfl⟩
      | ok svg =>
        refine Or.inr ⟨svg, rfl, ?_⟩
        intro hpos
        obtain ⟨e, he⟩ := he
        rw [SVGImage.init_ok, if_neg (not_not_intro hpos)] at he
        exact Except.noConfusion he
    · intro hcase
      rcases hcase with ⟨exc, rfl⟩ | ⟨svg, rfl, hnpos⟩
      · exact ⟨ImageLoadingError.from_exception exc, SVGImage.init_err exc⟩
      · exact ⟨ImageLoadingError.no_intrinsic_size,
          by rw [SVGImage.init_ok, if_pos hnpos]⟩
  · intro svg hr hw hh
    subst hr
    rw [SVGImage.init_ok, if_neg (not_not_intro ⟨hw, hh⟩)]

/-- C9 witness: a parsed 4×2 image constructs successfully with ratio 2,
and a parsed zero-width image raises the load error. -/
theorem svg_init_load_error_iff_witness :
    SVGImage.init (Except.ok ⟨4, 2⟩) =
        Except.ok { intrinsic_width := 4, intrinsic_height := 2,
                    ratio_wh := 2 } ∧
      ∃ e, SVGImage.init (Except.ok ⟨0, 5⟩) = .error e := by
  constructor
  · have h := (svg_init_load_error_iff (Except.ok ⟨4, 2⟩)).2 ⟨4, 2⟩ rfl
      (by norm_num) (by norm_num)
    rw [h]
    norm_num
  · exact (svg_init_load_error_iff (Except.ok ⟨0, 5⟩)).1.mpr
      (Or.inr ⟨⟨0, 5⟩, rfl, by norm_num⟩)

/-- Unfolding lemma: a live smooth-mode `show` frame takes the second
repaint branch and then runs the frame tail. -/
theorem Marquee.show_smooth (ext : List Char → TextExtents) (now : ℚ)
    (nl : Bool) (m : MarqueeState) (hstop : m.stop = false)
    (hshowing : m.showing = true) (hsm : m.smooth = true) :
    Marquee.show ext now nl m =
      some (Marquee.finish_frame now m,
        [DrawEvent.erase_box, DrawEvent.paint_slice m.pos, DrawEvent.blit],
        !nl) := by
  simp [Marquee.show, hstop, hshowing, hsm, color_changed_attr_truthy]

/-- Unfolding lemma: a live non-smooth `show` frame whose `_shrink_text`
measurement terminates takes the first repaint branch and then runs the
frame tail. -/
theorem Marquee.show_nonsmooth_some (ext : List Char → TextExtents)
    (now : ℚ) (nl : Bool) (m m1 : MarqueeState) (hstop : m.stop = false)
    (hshowing : m.showing = true) (hsm : m.smooth = false)
    (hshrink : Marquee.shrink_text ext m = some m1) :
    Marquee.show ext now nl m =
      some (Marquee.finish_frame now m1,
        [DrawEvent.erase_box, DrawEvent.draw_text m1.shrinked_text,
         DrawEvent.blit],
        !nl) := by
  simp [Marquee.show, hstop, hshowing, hsm, color_changed_attr_truthy,
    hshrink]

/-- Unfolding lemma: a live non-smooth `show` frame whose `_shrink_text`
measurement never terminates is modelled as `none`. -/
theorem Marquee.show_nonsmooth_none (ext : List Char → TextExtents)
    (now : ℚ) (nl : Bool) (m : MarqueeState) (hstop : m.stop = false)
    (hshowing : m.showing = true) (hsm : m.smooth = false)
    (hshrink : Marquee.shrink_text ext m = none) :
    Marquee.show ext now nl m = none := by
  simp [Marquee.show, hstop, hshowing, hsm, color_changed_attr_truthy,
    hshrink]

/-- Unfolding lemma: `show` on a stopped or not-showing marquee does
nothing. -/
theorem Marquee.show_inactive (ext : List Char → TextExtents) (now : ℚ)
    (nl : Bool) (m : MarqueeState) (h : (!m.stop && m.showing) = false) :
    Marquee.show ext now nl m = some (m, [], false) := by
  simp [Marquee.show, h]

/-- C8: `Marquee.show` tests the attribute `self.color_changed` — the bound
method object, which is always truthy — so every live frame takes a repaint
branch (erase box, middle draw, blit), whatever `color_changed()` would
return and whatever `should_scroll` is. -/
theorem marquee_always_repaints (ext : List Char → TextExtents) (now : ℚ)
    (nl : Bool) (m m' : MarqueeState) (ev : List DrawEvent) (s : Bool)
    (hshowing : m.showing = true) (hstop : m.stop = false)
    (h : Marquee.show ext now nl m = some (m', ev, s)) :
    color_changed_attr_truthy m = true ∧
      ∃ mid, ev = [DrawEvent.erase_box, mid, DrawEvent.blit] := by
  refine ⟨rfl, ?_⟩
  cases hsm : m.smooth with
  | true =>
    rw [Marquee.show_smooth ext now nl m hstop hshowing hsm] at h
    simp only [Option.some.injEq, Prod.mk.injEq] at h
    exact ⟨DrawEvent.paint_slice m.pos, h.2.1.symm⟩
  | false =>
    cases hshrink : Marquee.shrink_text ext m with
    | none =>
      rw [Marquee.show_nonsmooth_none ext now nl m hstop hshowing hsm
        hshrink] at h
      exact absurd h (by simp)
    | some m1 =>
      rw [Marquee.show_nonsmooth_some ext now nl m m1 hstop hshowing hsm
        hshrink] at h
      simp only [Option.some.injEq, Prod.mk.injEq] at h
      exact ⟨DrawEvent.draw_text m1.shrinked_text, h.2.1.symm⟩

/-- A text-measurement collaborator whose advance and width are the
character count (used only to instantiate witnesses). -/
def ext_len : List Char → TextExtents :=
  fun s => ⟨0, 0, (s.length : ℚ), 1, (s.length : ℚ), 0⟩

/-- A live smooth marquee whose colors never changed (witness input). -/
def mW8 : MarqueeState :=
  { Marquee.init ['h', 'i'] (0, 0, 0, 1) 0 0 10 5 (1, 1, 1, 1) 1 (1 / 20)
      (fun q => q) true with showing := true }

/-- C8 witness: on a concrete live marquee whose `color_changed()` would
return a falsy value and whose `should_scroll` is false, `show` still takes
the repaint branch. -/
theorem marquee_always_repaints_witness :
    Marquee.color_changed mW8 = false ∧
      ∃ m' ev s, Marquee.show ext_len 0 false mW8 = some (m', ev, s) ∧
        ∃ mid, ev = [DrawEvent.erase_box, mid, DrawEvent.blit] := by
  refine ⟨rfl, _, _, _, rfl, ?_⟩
  exact (marquee_always_repaints ext_len 0 false mW8 _ _ _ rfl rfl rfl).2

/-- `Marquee._shrink_text` only writes `_shrinked_text`, `_should_scroll`
and `_transition_time`; every other field survives, `_should_scroll` can
only be raised, and `_transition_time` is either untouched or set to the
non-smooth duration formula. -/
theorem shrink_text_fields (ext : List Char → TextExtents)
    (m m1 : MarqueeState) (h : Marquee.shrink_text ext m = some m1) :
    m1.stop = m.stop ∧ m1.showing = m.showing ∧ m1.pos = m.pos ∧
    m1.text = m.text ∧ m1.smooth = m.smooth ∧
    m1.first_time = m.first_time ∧ m1.max_offset = m.max_offset ∧
    m1.transition = m.transition ∧ m1.width = m.width ∧
    (m1.should_scroll = true ∨ m1.should_scroll = m.should_scroll) ∧
    (m1.transition_time =
        some (m.interval_time * ((m.text.length : ℚ) + 3) / m.step) ∨
      m1.transition_time = m.transition_time) := by
  unfold Marquee.shrink_text at h
  split at h
  · exact absurd h (by simp)
  · split at h
    · simp only [Option.some.injEq] at h
      subst h
      exact ⟨rfl, rfl, rfl, rfl, rfl, rfl, rfl, rfl, rfl, Or.inl rfl,
        Or.inl rfl⟩
    · simp only [Option.some.injEq] at h
      subst h
      exact ⟨rfl, rfl, rfl, rfl, rfl, rfl, rfl, rfl, rfl, Or.inr rfl,
        Or.inr rfl⟩

/-- The frame tail on a scrolling state whose elapsed time exceeds the
transition duration: the cycle-start timestamp resets to `now` and the
offset is recomputed at progress 0. -/
theorem finish_frame_recycle (now : ℚ) (m1 : MarqueeState) (t0 td : ℚ)
    (hscroll : m1.should_scroll = true) (hft : m1.first_time = some t0)
    (htt : m1.transition_time = some td) (helapsed : td < now - t0) :
    (Marquee.finish_frame now m1).first_time = some now ∧
      (Marquee.finish_frame now m1).pos =
        py_int ((m1.max_offset : ℚ) * m1.transition 0) := by
  unfold Marquee.finish_frame Marquee.scroll_block
  simp only [hscroll, hft, htt, Option.getD_some, if_true, helapsed]
  simp [helapsed]

/-- C4: for every scrolling marquee, a live `show` frame whose elapsed
wall-clock time since the cycle start exceeds the transition duration
resets the cycle-start timestamp to `now` and recomputes the offset as
`int(max_offset * transition(0))`.  The hypothesis `hcons` is the
reachability invariant that in non-smooth mode the stored duration is the
one `_shrink_text` writes (which that method may rewrite mid-frame, with
the same value). -/
theorem marquee_cycle_reset (ext : List Char → TextExtents) (now : ℚ)
    (nl : Bool) (m m' : MarqueeState) (ev : List DrawEvent) (s : Bool)
    (t0 td : ℚ)
    (hshowing : m.showing = true) (hstop : m.stop = false)
    (hscroll : m.should_scroll = true)
    (hft : m.first_time = some t0) (htt : m.transition_time = some td)
    (helapsed : td < now - t0)
    (hcons : m.smooth = false →
      td = m.interval_time * ((m.text.length : ℚ) + 3) / m.step)
    (h : Marquee.show ext now nl m = some (m', ev, s)) :
    m'.first_time = some now ∧
      m'.pos = py_int ((m.max_offset : ℚ) * m.transition 0) := by
  cases hsm : m.smooth with
  | true =>
    rw [Marquee.show_smooth ext now nl m hstop hshowing hsm] at h
    simp only [Option.some.injEq, Prod.mk.injEq] at h
    rw [← h.1]
    exact finish_frame_recycle now m t0 td hscroll hft htt helapsed
  | false =>
    cases hshrink : Marquee.shrink_text ext m with
    | none =>
      rw [Marquee.show_nonsmooth_none ext now nl m hstop hshowing hsm
        hshrink] at h
      exact absurd h (by simp)
    | some m1 =>
      rw [Marquee.show_nonsmooth_some ext now nl m m1 hstop hshowing hsm
        hshrink] at h
      simp only [Option.some.injEq, Prod.mk.injEq] at h
      obtain ⟨hstop1, hshow1, hpos1, htext1, hsm1, hft1, hmax1, htr1, hw1,
        hsc1, htt1⟩ := shrink_text_fields ext m m1 hshrink
      have hsc1' : m1.should_scroll = true := by
        rcases hsc1 with h' | h'
        · exact h'
        · rw [h', hscroll]
      have htt1' : m1.transition_time = some td := by
        rcases htt1 with h' | h'
        · rw [h', hcons hsm]
        · rw [h', htt]
      have hft1' : m1.first_time = some t0 := by rw [hft1, hft]
      have hres := finish_frame_recycle now m1 t0 td hsc1' hft1' htt1'
        helapsed
      rw [hmax1, htr1] at hres
      rw [← h.1]
      exact hres

/-- A live smooth scrolling marquee mid-cycle (witness input): cycle start
at time 0, duration 1 second. -/
def mW4 : MarqueeState :=
  { Marquee.init ['h', 'i'] (0, 0, 0, 1) 0 0 1 5 (1, 1, 1, 1) 1 (1 / 20)
      (fun _ => 0) true with
    showing := true
    should_scroll := true
    first_time := some 0
    transition_time := some 1 }

/-- C4 witness: at wall-clock time 2, past the 1-second duration, the frame
resets the cycle start to 2 and the offset to
`int(max_offset * transition(0))`. -/
theorem marquee_cycle_reset_witness :
    mW4.showing = true ∧ mW4.stop = false ∧ mW4.should_scroll = true ∧
    mW4.first_time = some 0 ∧ mW4.transition_time = some 1 ∧
    (1 : ℚ) < 2 - 0 ∧
    ∃ m' ev s, Marquee.show ext_len 2 false mW4 = some (m', ev, s) ∧
      m'.first_time = some 2 ∧
      m'.pos = py_int ((mW4.max_offset : ℚ) * mW4.transition 0) := by
  refine ⟨rfl, rfl, rfl, rfl, rfl, by norm_num, _, _, _, rfl, ?_, ?_⟩
  · exact (marquee_cycle_reset ext_len 2 false mW4 _ _ _ 0 1 rfl rfl rfl
      rfl rfl (by norm_num) (fun hc => absurd hc (by decide)) rfl).1
  · exact (marquee_cycle_reset ext_len 2 false mW4 _ _ _ 0 1 rfl rfl rfl
      rfl rfl (by norm_num) (fun hc => absurd hc (by decide)) rfl).2

/-- The measurement loop exits immediately when the string already fits. -/
theorem shrink_loop_fits (ext : List Char → TextExtents) (w : ℚ)
    (t : List Char) (h : ¬(w < (ext t).x_advance)) :
    shrink_loop ext w t = some t := by
  unfold shrink_loop
  rw [if_neg h]

/-- `_shrink_text` on a state at offset 0 whose text fits the box: the
shrunk text is the text itself and nothing else changes. -/
theorem shrink_text_fits (ext : List Char → TextExtents) (m : MarqueeState)
    (hpos : m.pos = 0) (hfit : ¬(m.width < (ext m.text).x_advance)) :
    Marquee.shrink_text ext m =
      some { m with shrinked_text := m.text } := by
  have hnt : Marquee.new_text m = m.text := by
    unfold Marquee.new_text
    rw [hpos]
    simp [py_slice_from]
  unfold Marquee.shrink_text
  rw [hnt, shrink_loop_fits ext m.width m.text hfit]
  simp

/-- `_smooth_init_buffer` when the measured strip fits the box: it only
records `smooth_text_width` and retargets `max_offset`. -/
theorem smooth_init_no_scroll (ext : List Char → TextExtents)
    (m : MarqueeState)
    (hfit : ¬(m.width < (ext (m.text ++ three_spaces)).width)) :
    Marquee.smooth_init_buffer ext m =
      { m with
        smooth_text_width :=
          some (py_int (ext (m.text ++ three_spaces)).x_advance)
        max_offset := py_int (ext (m.text ++ three_spaces)).x_advance } := by
  simp only [Marquee.smooth_init_buffer]
  rw [if_neg hfit]

/-- The scroll block is a no-op when `_should_scroll` is false. -/
theorem scroll_block_no_scroll (now : ℚ) (m1 : MarqueeState)
    (h : m1.should_scroll = false) :
    Marquee.scroll_block now m1 = m1 := by
  unfold Marquee.scroll_block
  simp [h]

/-- The frame tail on a non-scrolling state only refreshes the remembered
colors. -/
theorem finish_frame_no_scroll (now : ℚ) (m1 : MarqueeState)
    (h : m1.should_scroll = false) :
    Marquee.finish_frame now m1 =
      { m1 with
        old_text_color := m1.text_color
        old_background_color := m1.background_color } := by
  unfold Marquee.finish_frame
  rw [scroll_block_no_scroll now m1 h]

/-- `Marquee.start` on a freshly constructed marquee whose text fits the
box (in both measurement senses) arms it without scrolling. -/
theorem marquee_start_fits (text : List Char) (tc : Color)
    (x0 y0 w hgt : ℚ) (bg : Color) (step it : ℚ) (tr : ℚ → ℚ) (sm : Bool)
    (ext : List Char → TextExtents)
    (h1 : (ext text).x_advance ≤ w)
    (h2 : (ext (text ++ three_spaces)).width ≤ w)
    (m1 : MarqueeState) (sch : Bool)
    (hstart : Marquee.start ext
      (Marquee.init text tc x0 y0 w hgt bg step it tr sm) =
        some (m1, sch)) :
    m1.pos = 0 ∧ m1.should_scroll = false ∧ m1.text = text ∧
      m1.width = w := by
  cases sm with
  | true =>
    have hstep : Marquee.start ext
        (Marquee.init text tc x0 y0 w hgt bg step it tr true) =
      some (Marquee.smooth_init_buffer ext
        { Marquee.init text tc x0 y0 w hgt bg step it tr true with
          showing := true, stop := false, first_time := none }, true) := rfl
    rw [hstep, smooth_init_no_scroll ext _ (not_lt.mpr h2)] at hstart
    simp only [Option.some.injEq, Prod.mk.injEq] at hstart
    rw [← hstart.1]
    exact ⟨rfl, rfl, rfl, rfl⟩
  | false =>
    have hstep : Marquee.start ext
        (Marquee.init text tc x0 y0 w hgt bg step it tr false) =
      (Marquee.shrink_text ext
        { Marquee.init text tc x0 y0 w hgt bg step it tr false with
          showing := true, stop := false, first_time := none }).map
        (fun m2 => (m2, true)) := rfl
    rw [hstep, shrink_text_fits ext _ rfl (not_lt.mpr h1)] at hstart
    simp only [Option.map_some', Option.some.injEq, Prod.mk.injEq]
      at hstart
    rw [← hstart.1]
    exact ⟨rfl, rfl, rfl, rfl⟩

/-- One live `show` frame on a non-scrolling marquee at offset 0 whose text
fits keeps the offset at 0 and the scroll flag down. -/
theorem marquee_show_keeps (ext : List Char → TextExtents) (now : ℚ)
    (nl : Bool) (m m' : MarqueeState) (ev : List DrawEvent) (s : Bool)
    (hfit : ¬(m.width < (ext m.text).x_advance))
    (hpos : m.pos = 0) (hscroll : m.should_scroll = false)
    (h : Marquee.show ext now nl m = some (m', ev, s)) :
    m'.pos = 0 ∧ m'.should_scroll = false ∧ m'.text = m.text ∧
      m'.width = m.width := by
  cases hact : (!m.stop && m.showing) with
  | false =>
    rw [Marquee.show_inactive ext now nl m hact] at h
    simp only [Option.some.injEq, Prod.mk.injEq] at h
    rw [← h.1]
    exact ⟨hpos, hscroll, rfl, rfl⟩
  | true =>
    simp only [Bool.and_eq_true, Bool.not_eq_true'] at hact
    obtain ⟨hstop, hshowing⟩ := hact
    cases hsm : m.smooth with
    | true =>
      rw [Marquee.show_smooth ext now nl m hstop hshowing hsm] at h
      simp only [Option.some.injEq, Prod.mk.injEq] at h
      rw [← h.1, finish_frame_no_scroll now m hscroll]
      exact ⟨hpos, hscroll, rfl, rfl⟩
    | false =>
      rw [Marquee.show_nonsmooth_some ext now nl m _ hstop hshowing hsm
        (shrink_text_fits ext m hpos hfit)] at h
      simp only [Option.some.injEq, Prod.mk.injEq] at h
      rw [← h.1,
        finish_frame_no_scroll now { m with shrinked_text := m.text }
          hscroll]
      exact ⟨hpos, hscroll, rfl, rfl⟩

/-- Any run of `show` frames preserves a zero offset and a lowered scroll
flag as long as the (unchanging) text keeps fitting the box. -/
theorem marquee_trace_keeps (ext : List Char → TextExtents)
    (times : List ℚ) :
    ∀ m m2 : MarqueeState, ¬(m.width < (ext m.text).x_advance) →
      m.pos = 0 → m.should_scroll = false →
      Marquee.show_trace ext m times = some m2 →
      m2.pos = 0 ∧ m2.should_scroll = false := by
  induction times with
  | nil =>
    intro m m2 hfit hpos hscroll h
    simp only [Marquee.show_trace, Option.some.injEq] at h
    rw [← h]
    exact ⟨hpos, hscroll⟩
  | cons now rest ih =>
    intro m m2 hfit hpos hscroll h
    rw [Marquee.show_trace] at h
    cases hshow : Marquee.show ext now false m with
    | none => rw [hshow] at h; exact absurd h (by simp)
    | some triple =>
      obtain ⟨m1, ev, s⟩ := triple
      rw [hshow] at h
      obtain ⟨hp, hs, ht, hw⟩ :=
        marquee_show_keeps ext now false m m1 ev s hfit hpos hscroll hshow
      exact ih m1 m2 (by rw [ht, hw]; exact hfit) hp hs h

/-- C5: a marquee whose rendered text fits its box (both the non-smooth
advance measurement and the smooth strip-width measurement) comes out of
`start` with `should_scroll = false`, and its offset `_pos` stays 0 across
every subsequent `show` frame, in either mode. -/
theorem marquee_no_scroll_when_fits (text : List Char) (tc : Color)
    (x0 y0 w hgt : ℚ) (bg : Color) (step it : ℚ) (tr : ℚ → ℚ) (sm : Bool)
    (ext : List Char → TextExtents)
    (h1 : (ext text).x_advance ≤ w)
    (h2 : (ext (text ++ three_spaces)).width ≤ w)
    (m1 : MarqueeState) (sch : Bool)
    (hstart : Marquee.start ext
      (Marquee.init text tc x0 y0 w hgt bg step it tr sm) =
        some (m1, sch))
    (times : List ℚ) (m2 : MarqueeState)
    (htrace : Marquee.show_trace ext m1 times = some m2) :
    m1.should_scroll = false ∧ m2.pos = 0 ∧ m2.should_scroll = false := by
  obtain ⟨hp, hs, ht, hw⟩ := marquee_start_fits text tc x0 y0 w hgt bg
    step it tr sm ext h1 h2 m1 sch hstart
  refine ⟨hs, ?_⟩
  exact marquee_trace_keeps ext times m1 m2
    (by rw [ht, hw]; exact not_lt.mpr h1) hp hs htrace

/-- A freshly constructed smooth marquee whose two-character text easily
fits a 10-unit box (witness input). -/
def mInit5 : MarqueeState :=
  Marquee.init ['h', 'i'] (0, 0, 0, 1) 0 0 10 5 (1, 1, 1, 1) 1 (1 / 20)
    (fun q => q) true

/-- C5 witness: starting `mInit5` and running two frames keeps the offset
at 0 with scrolling off. -/
theorem marquee_no_scroll_when_fits_witness :
    (ext_len ['h', 'i']).x_advance ≤ 10 ∧
    (ext_len (['h', 'i'] ++ three_spaces)).width ≤ 10 ∧
    ∃ m1 sch m2, Marquee.start ext_len mInit5 = some (m1, sch) ∧
      Marquee.show_trace ext_len m1 [0, 1] = some m2 ∧
      m1.should_scroll = false ∧ m2.pos = 0 ∧ m2.should_scroll = false := by
  refine ⟨by decide, by decide, _, _, _, rfl, rfl, ?_, ?_, ?_⟩
  all_goals
    have h := marquee_no_scroll_when_fits ['h', 'i'] (0, 0, 0, 1) 0 0 10 5
      (1, 1, 1, 1) 1 (1 / 20) (fun q => q) true ext_len (by decide)
      (by decide) _ _ rfl [0, 1] _ rfl
  · exact h.1
  · exact h.2.1
  · exact h.2.2

/-- C6: a smooth marquee whose measured text strip exceeds the box width
gets `should_scroll = true` and the transition duration
`interval_time * smooth_text_width / step` with
`smooth_text_width = int(x_advance(text + "   "))`; in non-smooth mode
`_shrink_text` analogously sets
`interval_time * len(text + "   ") / step` whenever the text had to be
shrunk. -/
theorem marquee_transition_duration (ext : List Char → TextExtents)
    (m : MarqueeState)
    (hwide : m.width < (ext (m.text ++ three_spaces)).width) :
    (Marquee.smooth_init_buffer ext m).should_scroll = true ∧
    (Marquee.smooth_init_buffer ext m).transition_time =
      some (m.interval_time *
        ((py_int (ext (m.text ++ three_spaces)).x_advance : ℤ) : ℚ) /
        m.step) ∧
    ∀ m1, Marquee.shrink_text ext m = some m1 →
      m1.shrinked_text ≠ m.text →
      m1.transition_time =
        some (m.interval_time * ((m.text.length : ℚ) + 3) / m.step) := by
  refine ⟨?_, ?_, ?_⟩
  · simp only [Marquee.smooth_init_buffer]
    rw [if_pos hwide]
  · simp only [Marquee.smooth_init_buffer]
    rw [if_pos hwide]
  · intro m1 hsh hne
    unfold Marquee.shrink_text at hsh
    split at hsh
    · exact absurd hsh (by simp)
    · split at hsh
      · simp only [Option.some.injEq] at hsh
        subst hsh
        rfl
      · rename_i hcond
        simp only [Option.some.injEq] at hsh
        subst hsh
        exact absurd (by simpa using hne) hcond

/-- The witness text for the duration scenario. -/
def textW6 : List Char := ['x']

/-- A measurement collaborator reporting a 200-px-wide strip with a
150-px scroll cycle for the witness text (the strip geometry is external
input). -/
def extW6 : List Char → TextExtents := fun s =>
  if s = textW6 ++ three_spaces then ⟨0, 0, 200, 20, 150, 0⟩
  else ⟨0, 0, 0, 0, 0, 0⟩

/-- A smooth marquee in a 100-px box with `step = 1` and
`interval_time = 0.05` (witness input). -/
def mW6 : MarqueeState :=
  Marquee.init textW6 (0, 0, 0, 1) 0 0 100 20 (1, 1, 1, 1) 1 (1 / 20)
    (fun q => q) true

/-- C6 witness: a 200-px text in a 100-px box scrolling over 150 px with
`step = 1`, `interval = 0.05 s` scrolls and gets a 7.5-second duration. -/
theorem marquee_transition_duration_witness :
    mW6.width < (extW6 (mW6.text ++ three_spaces)).width ∧
    (Marquee.smooth_init_buffer extW6 mW6).should_scroll = true ∧
    (Marquee.smooth_init_buffer extW6 mW6).transition_time =
      some (15 / 2) := by
  have hwide : mW6.width < (extW6 (mW6.text ++ three_spaces)).width := by
    decide
  refine ⟨hwide, (marquee_transition_duration extW6 mW6 hwide).1, ?_⟩
  rw [(marquee_transition_duration extW6 mW6 hwide).2.1]
  rw [show (extW6 (mW6.text ++ three_spaces)).x_advance = 150 from rfl]
  rw [show py_int 150 = 150 by norm_num [py_int, Int.floor_ofNat]]
  norm_num [mW6, Marquee.init]

/-- C7 witness: the start-then-stop scenario instantiated on a concrete
icon with half-second phases. -/
theorem blink_start_stop_before_first_show_witness :
    (BlinkIcon.stop (BlinkIcon.start ⟨false, false, 1 / 2, 1 / 2⟩).1).showing
        = false ∧
      BlinkIcon.show
          (BlinkIcon.stop (BlinkIcon.start ⟨false, false, 1 / 2, 1 / 2⟩).1) =
        (BlinkIcon.stop (BlinkIcon.start ⟨false, false, 1 / 2, 1 / 2⟩).1,
          [], none) :=
  blink_start_stop_before_first_show ⟨false, false, 1 / 2, 1 / 2⟩

/-- C10 witness: the interval choice instantiated at 30 fps and a
requested 0.01-second interval. -/
theorem animated_widget_interval_choice_witness :
    BaseAnimatedWidget.interval_time (some 30) (some (1 / 100)) =
        max (1 / 100) (1 / 30) ∧
      BaseAnimatedWidget.interval_time (some 30) none = 1 / 30 ∧
      BaseAnimatedWidget.interval_time none (some (1 / 100)) = 1 / 100 ∧
      BaseAnimatedWidget.interval_time none none = 1 ∧
      ∀ requested : Option ℚ,
        1 / 30 ≤ BaseAnimatedWidget.interval_time (some 30) requested :=
  animated_widget_interval_choice 30 (1 / 100)
